import Mathlib

/-!
# Intersection_management — verification of the phase state machine

Shallow embedding of the traffic-signal controller in `src/main.cpp`
(primary variant) and, where claims cite it, `src/main_withlcd.cpp`
(namespace `MainWithLcd`).  Signal heads are modelled as booleans
(`true` = the C level `HIGH`), buttons as sampled boolean levels
(`true` = `HIGH` = released, `false` = `LOW` = pressed, matching the
active-low `INPUT_PULLUP` wiring).  `digitalWrite` becomes a pure state
update; each `set*State` helper is the fold of its concrete list of
writes, so that intermediate states of the write sequence can be
inspected.  LCD output and `delay` calls have no effect on controller
state and are omitted.
-/

namespace Main

/-- The eight signal-head output pins of `main.cpp`
(`PIN_NS_RED` … `PIN_PED_GREEN`). -/
inductive Pin where
  | nsRed | nsYellow | nsGreen
  | ewRed | ewYellow | ewGreen
  | pedRed | pedGreen
  deriving DecidableEq, Repr

/-- The on/off state of every signal head; `true` is the C level `HIGH`
(lamp lit). -/
structure SigState where
  nsRed : Bool
  nsYellow : Bool
  nsGreen : Bool
  ewRed : Bool
  ewYellow : Bool
  ewGreen : Bool
  pedRed : Bool
  pedGreen : Bool
  deriving DecidableEq, Repr

/-- `digitalWrite(pin, level)`: set one head's level, leaving the rest
unchanged. -/
def digitalWrite (s : SigState) : Pin → Bool → SigState
  | Pin.nsRed, b => { s with nsRed := b }
  | Pin.nsYellow, b => { s with nsYellow := b }
  | Pin.nsGreen, b => { s with nsGreen := b }
  | Pin.ewRed, b => { s with ewRed := b }
  | Pin.ewYellow, b => { s with ewYellow := b }
  | Pin.ewGreen, b => { s with ewGreen := b }
  | Pin.pedRed, b => { s with pedRed := b }
  | Pin.pedGreen, b => { s with pedGreen := b }

/-- Apply one `(pin, level)` write. -/
def applyWrite (s : SigState) (w : Pin × Bool) : SigState :=
  digitalWrite s w.1 w.2

/-- Apply a sequence of writes in order. -/
def applyWrites (s : SigState) (ws : List (Pin × Bool)) : SigState :=
  ws.foldl applyWrite s

/-- The six `digitalWrite` calls of `setAllVehicleRed` (main.cpp lines
99–107), in program order. -/
def setAllVehicleRedWrites : List (Pin × Bool) :=
  [(Pin.nsRed, true), (Pin.nsYellow, false), (Pin.nsGreen, false),
   (Pin.ewRed, true), (Pin.ewYellow, false), (Pin.ewGreen, false)]

/-- Write sequence of `setNsGreenState` (lines 221–225): the all-red
baseline followed by the NS-green assertion. -/
def setNsGreenWrites : List (Pin × Bool) :=
  setAllVehicleRedWrites ++ [(Pin.nsRed, false), (Pin.nsGreen, true)]

/-- Write sequence of `setNsYellowState` (lines 252–256). -/
def setNsYellowWrites : List (Pin × Bool) :=
  setAllVehicleRedWrites ++ [(Pin.nsRed, false), (Pin.nsYellow, true)]

/-- Write sequence of `setEwGreenState` (lines 311–315). -/
def setEwGreenWrites : List (Pin × Bool) :=
  setAllVehicleRedWrites ++ [(Pin.ewRed, false), (Pin.ewGreen, true)]

/-- Write sequence of `setEwYellowState` (lines 335–339). -/
def setEwYellowWrites : List (Pin × Bool) :=
  setAllVehicleRedWrites ++ [(Pin.ewRed, false), (Pin.ewYellow, true)]

/-- Write sequence of `setPedestrianGreenState` (lines 370–374). -/
def setPedestrianGreenWrites : List (Pin × Bool) :=
  setAllVehicleRedWrites ++ [(Pin.pedRed, false), (Pin.pedGreen, true)]

/-- `setAllVehicleRed()` as a state transformer. -/
def setAllVehicleRed (s : SigState) : SigState :=
  applyWrites s setAllVehicleRedWrites

/-- `setNsGreenState()` as a state transformer. -/
def setNsGreenState (s : SigState) : SigState :=
  applyWrites s setNsGreenWrites

/-- `setNsYellowState()` as a state transformer. -/
def setNsYellowState (s : SigState) : SigState :=
  applyWrites s setNsYellowWrites

/-- `setEwGreenState()` as a state transformer. -/
def setEwGreenState (s : SigState) : SigState :=
  applyWrites s setEwGreenWrites

/-- `setEwYellowState()` as a state transformer. -/
def setEwYellowState (s : SigState) : SigState :=
  applyWrites s setEwYellowWrites

/-- `setPedestrianGreenState()` as a state transformer. -/
def setPedestrianGreenState (s : SigState) : SigState :=
  applyWrites s setPedestrianGreenWrites

/-- An axis "shows" when its green or its yellow head is lit. -/
def nsShows (s : SigState) : Bool := s.nsGreen || s.nsYellow

/-- An axis "shows" when its green or its yellow head is lit. -/
def ewShows (s : SigState) : Bool := s.ewGreen || s.ewYellow

/-- Vehicle-safety condition: at most one of the two vehicle axes shows
green or yellow, and while one shows, the other axis's red head is lit. -/
def axisSafe (s : SigState) : Prop :=
  (nsShows s = true → s.ewRed = true ∧ ewShows s = false) ∧
  (ewShows s = true → s.nsRed = true ∧ nsShows s = false)

/-- On each axis, green and yellow are never lit together. -/
def headOk (s : SigState) : Prop :=
  ¬(s.nsGreen = true ∧ s.nsYellow = true) ∧
  ¬(s.ewGreen = true ∧ s.ewYellow = true)

/-- Both vehicle axes fully red: red heads lit, no green or yellow lit. -/
def allVehicleRedState (s : SigState) : Prop :=
  s.nsRed = true ∧ s.ewRed = true ∧ nsShows s = false ∧ ewShows s = false

instance (s : SigState) : Decidable (axisSafe s) := by
  unfold axisSafe; infer_instance

instance (s : SigState) : Decidable (headOk s) := by
  unfold headOk; infer_instance

instance (s : SigState) : Decidable (allVehicleRedState s) := by
  unfold allVehicleRedState; infer_instance

/-- Safety of an entire write sequence: every intermediate signal state
(the states scanned while the writes are applied one at a time, start and
end included) keeps the two vehicle axes exclusive, never lights green
and yellow together on one axis, and lights the pedestrian green head
only while both vehicle axes are fully red. -/
def writeSeqSafe (s : SigState) (ws : List (Pin × Bool)) : Prop :=
  ∀ t ∈ List.scanl applyWrite s ws,
    axisSafe t ∧ headOk t ∧ (t.pedGreen = true → allVehicleRedState t)

instance (s : SigState) (ws : List (Pin × Bool)) : Decidable (writeSeqSafe s ws) := by
  unfold writeSeqSafe; infer_instance

/-- The all-red signal state the controller establishes at startup. -/
def sigAllRed : SigState :=
  ⟨true, false, false, true, false, false, true, false⟩

/-- The five-state phase enum of `main.cpp` (lines 24–30). -/
inductive Phase where
  | PHASE_NS_GREEN
  | PHASE_NS_YELLOW
  | PHASE_EW_GREEN
  | PHASE_EW_YELLOW
  | PHASE_PED_GREEN
  deriving DecidableEq, Repr

/-- One sample of the three raw button levels read by `digitalRead`
inside `readButtons`; `true` is `HIGH` (released, pull-up), `false` is
`LOW` (pressed). -/
structure Inputs where
  ns : Bool
  ew : Bool
  ped : Bool
  deriving DecidableEq, Repr

/-- The controller's global mutable state in `main.cpp`: the current
phase, the two traffic counters, the pedestrian request latch, the
stored previous button levels used for edge detection, and the signal
heads. -/
@[ext]
structure CtrlState where
  currentPhase : Phase
  trafficCountNS : Nat
  trafficCountEW : Nat
  pedRequest : Bool
  lastNsBtnState : Bool
  lastEwBtnState : Bool
  lastPedBtnState : Bool
  sig : SigState
  deriving DecidableEq, Repr

/-- `isNsRed()` (lines 165–169): NS is red-equivalent during EW-Green,
EW-Yellow and the Pedestrian phase. -/
def isNsRed : Phase → Bool
  | Phase.PHASE_EW_GREEN => true
  | Phase.PHASE_EW_YELLOW => true
  | Phase.PHASE_PED_GREEN => true
  | _ => false

/-- `isEwRed()` (lines 171–175): EW is red-equivalent during NS-Green,
NS-Yellow and the Pedestrian phase. -/
def isEwRed : Phase → Bool
  | Phase.PHASE_NS_GREEN => true
  | Phase.PHASE_NS_YELLOW => true
  | Phase.PHASE_PED_GREEN => true
  | _ => false

/-- The NS-button block of `readButtons` (lines 121–137): on a
HIGH→LOW edge, increment `trafficCountNS` if NS is red-equivalent
(otherwise only a status message is shown); the stored previous level is
updated on every call. -/
def readNsButton (s : CtrlState) (nsBtn : Bool) : CtrlState :=
  let s1 :=
    if nsBtn = false ∧ s.lastNsBtnState = true then
      if isNsRed s.currentPhase = true then
        { s with trafficCountNS := s.trafficCountNS + 1 }
      else s
    else s
  { s1 with lastNsBtnState := nsBtn }

/-- The EW-button block of `readButtons` (lines 139–155). -/
def readEwButton (s : CtrlState) (ewBtn : Bool) : CtrlState :=
  let s1 :=
    if ewBtn = false ∧ s.lastEwBtnState = true then
      if isEwRed s.currentPhase = true then
        { s with trafficCountEW := s.trafficCountEW + 1 }
      else s
    else s
  { s1 with lastEwBtnState := ewBtn }

/-- The pedestrian-button block of `readButtons` (lines 157–163): on a
HIGH→LOW edge, set the request latch unconditionally. -/
def readPedButton (s : CtrlState) (pedBtn : Bool) : CtrlState :=
  let s1 :=
    if pedBtn = false ∧ s.lastPedBtnState = true then
      { s with pedRequest := true }
    else s
  { s1 with lastPedBtnState := pedBtn }

/-- `readButtons()` (lines 120–164): the three button blocks in program
order (NS, then EW, then pedestrian), one raw sample per button. -/
def readButtons (s : CtrlState) (i : Inputs) : CtrlState :=
  readPedButton (readEwButton (readNsButton s i.ns) i.ew) i.ped

/-- The sequence of `readButtons` calls executed while a phase dwells
(`waitOneSecondWithButtons` runs `readButtons` 50 times per tick; the
device thus consumes `50 * totalSecs` samples — the length of `ins` is
left as a parameter since no controller-state effect depends on it). -/
def runRead (s : CtrlState) (ins : List Inputs) : CtrlState :=
  ins.foldl readButtons s

/-- Number of HIGH→LOW (released→pressed) edges in a sampled level
sequence, given the stored previous level. -/
def countFalls : Bool → List Bool → Nat
  | _, [] => 0
  | prev, l :: ls => (if prev = true ∧ l = false then 1 else 0) + countFalls l ls

/-- Whether a sampled level sequence contains at least one HIGH→LOW
edge, given the stored previous level. -/
def hasFall : Bool → List Bool → Bool
  | _, [] => false
  | prev, l :: ls => (prev && !l) || hasFall l ls

/-- The stored previous level after sampling a whole sequence: the last
sample, or the initial stored level when the sequence is empty. -/
def lastLevel (prev : Bool) (ls : List Bool) : Bool :=
  ls.foldl (fun _ x => x) prev

/-- `YELLOW_TIME_SEC` (line 20). -/
def YELLOW_TIME_SEC : Nat := 3

/-- `PED_TIME_SEC` (line 21). -/
def PED_TIME_SEC : Nat := 8

/-- `BASE_GREEN_SEC` (line 22). -/
def BASE_GREEN_SEC : Nat := 10

/-- `computeNsGreenSeconds()` (lines 207–219), as a function of the
global `trafficCountNS` it reads. -/
def computeNsGreenSeconds (trafficCountNS : Nat) : Nat :=
  BASE_GREEN_SEC +
    (if 15 ≤ trafficCountNS then 30
     else if 10 ≤ trafficCountNS then 20
     else if 5 ≤ trafficCountNS then 10
     else 0)

/-- `computeEwGreenSeconds()` (lines 289–301), as a function of the
global `trafficCountEW` it reads. -/
def computeEwGreenSeconds (trafficCountEW : Nat) : Nat :=
  BASE_GREEN_SEC +
    (if 15 ≤ trafficCountEW then 30
     else if 10 ≤ trafficCountEW then 20
     else if 5 ≤ trafficCountEW then 10
     else 0)

/-- `phaseNsGreen()` (lines 180–205): set the phase, project the NS
green signal state, poll buttons throughout the dwell (whose tick count
is `computeNsGreenSeconds` of the counter at entry; the samples observed
are `ins`), then reset `trafficCountNS` to zero. -/
def phaseNsGreen (s : CtrlState) (ins : List Inputs) : CtrlState :=
  let s1 := { s with currentPhase := Phase.PHASE_NS_GREEN }
  let s2 := { s1 with sig := setNsGreenState s1.sig }
  let s3 := runRead s2 ins
  { s3 with trafficCountNS := 0 }

/-- `phaseNsYellow()` (lines 234–250): set the phase, project the NS
yellow signal state (re-asserted each tick in the source, which is
idempotent on the signal heads since `readButtons` never writes them),
and poll buttons throughout the dwell. -/
def phaseNsYellow (s : CtrlState) (ins : List Inputs) : CtrlState :=
  let s1 := { s with currentPhase := Phase.PHASE_NS_YELLOW }
  let s2 := { s1 with sig := setNsYellowState s1.sig }
  runRead s2 ins

/-- `phaseEwGreen()` (lines 259–287). -/
def phaseEwGreen (s : CtrlState) (ins : List Inputs) : CtrlState :=
  let s1 := { s with currentPhase := Phase.PHASE_EW_GREEN }
  let s2 := { s1 with sig := setEwGreenState s1.sig }
  let s3 := runRead s2 ins
  { s3 with trafficCountEW := 0 }

/-- `phaseEwYellow()` (lines 317–333). -/
def phaseEwYellow (s : CtrlState) (ins : List Inputs) : CtrlState :=
  let s1 := { s with currentPhase := Phase.PHASE_EW_YELLOW }
  let s2 := { s1 with sig := setEwYellowState s1.sig }
  runRead s2 ins

/-- `phasePedestrianIfRequested()` (lines 341–368): return immediately
when no request is latched; otherwise set the phase, project pedestrian
green, poll buttons throughout the fixed dwell, restore all-vehicle-red
with the pedestrian head red, and clear the latch unconditionally. -/
def phasePedestrianIfRequested (s : CtrlState) (ins : List Inputs) : CtrlState :=
  if s.pedRequest = false then s
  else
    let s1 := { s with currentPhase := Phase.PHASE_PED_GREEN }
    let s2 := { s1 with sig := setPedestrianGreenState s1.sig }
    let s3 := runRead s2 ins
    let sigEnd := digitalWrite (digitalWrite (setAllVehicleRed s3.sig) Pin.pedRed true) Pin.pedGreen false
    let s4 := { s3 with sig := sigEnd }
    { s4 with pedRequest := false }

/-- One iteration of `loop()` (lines 109–118): the fixed phase cycle
with its two pedestrian insertion points, each phase consuming its own
sampled inputs. -/
def loopBody (s : CtrlState) (i1 i2 i3 i4 i5 i6 : List Inputs) : CtrlState :=
  phasePedestrianIfRequested
    (phaseEwYellow
      (phaseEwGreen
        (phasePedestrianIfRequested
          (phaseNsYellow (phaseNsGreen s i1) i2) i3) i4) i5) i6

/-- The controller state established by `setup()` (lines 67–97):
NS-Green pending, counters zero, no pedestrian request, all previous
button levels `HIGH`, vehicle heads all red and pedestrian head red. -/
def initialState : CtrlState :=
  { currentPhase := Phase.PHASE_NS_GREEN
    trafficCountNS := 0
    trafficCountEW := 0
    pedRequest := false
    lastNsBtnState := true
    lastEwBtnState := true
    lastPedBtnState := true
    sig := sigAllRed }

end Main

namespace MainWithLcd

/-- `MAX_TRAFFIC_COUNT` (main_withlcd.cpp line 41). -/
def MAX_TRAFFIC_COUNT : Nat := 10

/-- The global mutable state of `main_withlcd.cpp`: this variant keeps
no phase variable; counting is gated by a cap instead of by redness. -/
structure CtrlState where
  trafficCountNS : Nat
  trafficCountEW : Nat
  pedRequest : Bool
  lastNsBtnState : Bool
  lastEwBtnState : Bool
  lastPedBtnState : Bool
  deriving DecidableEq, Repr

/-- The NS-button block of `readButtons` (main_withlcd.cpp lines
132–145): on a HIGH→LOW edge, increment `trafficCountNS` if below the
cap; the stored previous level is updated on every call. -/
def readNsButton (s : CtrlState) (nsBtn : Bool) : CtrlState :=
  let s1 :=
    if nsBtn = false ∧ s.lastNsBtnState = true then
      if s.trafficCountNS < MAX_TRAFFIC_COUNT then
        { s with trafficCountNS := s.trafficCountNS + 1 }
      else s
    else s
  { s1 with lastNsBtnState := nsBtn }

/-- The EW-button block of `readButtons` (main_withlcd.cpp lines
148–161). -/
def readEwButton (s : CtrlState) (ewBtn : Bool) : CtrlState :=
  let s1 :=
    if ewBtn = false ∧ s.lastEwBtnState = true then
      if s.trafficCountEW < MAX_TRAFFIC_COUNT then
        { s with trafficCountEW := s.trafficCountEW + 1 }
      else s
    else s
  { s1 with lastEwBtnState := ewBtn }

/-- The pedestrian-button block of `readButtons` (main_withlcd.cpp
lines 164–170). -/
def readPedButton (s : CtrlState) (pedBtn : Bool) : CtrlState :=
  let s1 :=
    if pedBtn = false ∧ s.lastPedBtnState = true then
      { s with pedRequest := true }
    else s
  { s1 with lastPedBtnState := pedBtn }

/-- `readButtons()` (main_withlcd.cpp lines 128–171). -/
def readButtons (s : CtrlState) (i : Main.Inputs) : CtrlState :=
  readPedButton (readEwButton (readNsButton s i.ns) i.ew) i.ped

/-- `computeNsGreenSeconds()` (main_withlcd.cpp lines 309–317): the
three-tier table of this variant. -/
def computeNsGreenSeconds (trafficCountNS : Nat) : Nat :=
  if trafficCountNS ≤ 3 then 10
  else if trafficCountNS ≤ 7 then 20
  else 30

/-- `computeEwGreenSeconds()` (main_withlcd.cpp lines 319–327). -/
def computeEwGreenSeconds (trafficCountEW : Nat) : Nat :=
  if trafficCountEW ≤ 3 then 10
  else if trafficCountEW ≤ 7 then 20
  else 30

end MainWithLcd

/-- C1: after every one of the output-setting operations
`setNsGreenState`, `setNsYellowState`, `setEwGreenState`,
`setEwYellowState`, `setPedestrianGreenState` and `setAllVehicleRed`, at
most one of the two vehicle axes (NS, EW) shows green or yellow while
the other axis shows red; and after `setPedestrianGreenState` (the
Pedestrian phase) both vehicle axes show red and only the pedestrian
head shows green. -/
theorem c1_signal_projection_exclusive :
    ∀ s : Main.SigState,
      Main.axisSafe (Main.setAllVehicleRed s) ∧
      Main.axisSafe (Main.setNsGreenState s) ∧
      Main.axisSafe (Main.setNsYellowState s) ∧
      Main.axisSafe (Main.setEwGreenState s) ∧
      Main.axisSafe (Main.setEwYellowState s) ∧
      Main.axisSafe (Main.setPedestrianGreenState s) ∧
      Main.allVehicleRedState (Main.setPedestrianGreenState s) ∧
      (Main.setPedestrianGreenState s).pedGreen = true ∧
      (Main.setPedestrianGreenState s).nsGreen = false ∧
      (Main.setPedestrianGreenState s).ewGreen = false := by
  intro s
  rcases s with ⟨a, b, c, d, e, f, g, h⟩
  revert a b c d e f g h
  decide

/-- C2: every `set*State` operation is the two-step sequence "all
vehicle red baseline, then assert the new color": starting from any
signal state that is vehicle-safe (axes exclusive, no green+yellow on
one axis) with the pedestrian green head off, every intermediate state
of the write sequence of each operation remains vehicle-safe, never
shows two conflicting colors, and asserts pedestrian green only when
both vehicle axes are fully red; moreover the state reached after the
baseline prefix is the all-vehicle-red state, so every transition passes
through all-red before the new color is asserted. -/
theorem c2_transition_write_sequence_safe :
    ∀ s : Main.SigState,
      Main.axisSafe s → Main.headOk s → s.pedGreen = false →
      (Main.writeSeqSafe s Main.setAllVehicleRedWrites ∧
       Main.writeSeqSafe s Main.setNsGreenWrites ∧
       Main.writeSeqSafe s Main.setNsYellowWrites ∧
       Main.writeSeqSafe s Main.setEwGreenWrites ∧
       Main.writeSeqSafe s Main.setEwYellowWrites ∧
       Main.writeSeqSafe s Main.setPedestrianGreenWrites) ∧
      Main.allVehicleRedState (Main.setAllVehicleRed s) ∧
      (Main.setAllVehicleRed s ∈ List.scanl Main.applyWrite s Main.setNsGreenWrites ∧
       Main.setAllVehicleRed s ∈ List.scanl Main.applyWrite s Main.setNsYellowWrites ∧
       Main.setAllVehicleRed s ∈ List.scanl Main.applyWrite s Main.setEwGreenWrites ∧
       Main.setAllVehicleRed s ∈ List.scanl Main.applyWrite s Main.setEwYellowWrites ∧
       Main.setAllVehicleRed s ∈ List.scanl Main.applyWrite s Main.setPedestrianGreenWrites) := by
  intro s
  rcases s with ⟨a, b, c, d, e, f, g, h⟩
  revert a b c d e f g h
  decide

/-- Witness for C2 at the startup all-red signal state. -/
theorem c2_transition_write_sequence_safe_witness :
    (Main.writeSeqSafe Main.sigAllRed Main.setAllVehicleRedWrites ∧
     Main.writeSeqSafe Main.sigAllRed Main.setNsGreenWrites ∧
     Main.writeSeqSafe Main.sigAllRed Main.setNsYellowWrites ∧
     Main.writeSeqSafe Main.sigAllRed Main.setEwGreenWrites ∧
     Main.writeSeqSafe Main.sigAllRed Main.setEwYellowWrites ∧
     Main.writeSeqSafe Main.sigAllRed Main.setPedestrianGreenWrites) ∧
    Main.allVehicleRedState (Main.setAllVehicleRed Main.sigAllRed) ∧
    (Main.setAllVehicleRed Main.sigAllRed ∈
       List.scanl Main.applyWrite Main.sigAllRed Main.setNsGreenWrites ∧
     Main.setAllVehicleRed Main.sigAllRed ∈
       List.scanl Main.applyWrite Main.sigAllRed Main.setNsYellowWrites ∧
     Main.setAllVehicleRed Main.sigAllRed ∈
       List.scanl Main.applyWrite Main.sigAllRed Main.setEwGreenWrites ∧
     Main.setAllVehicleRed Main.sigAllRed ∈
       List.scanl Main.applyWrite Main.sigAllRed Main.setEwYellowWrites ∧
     Main.setAllVehicleRed Main.sigAllRed ∈
       List.scanl Main.applyWrite Main.sigAllRed Main.setPedestrianGreenWrites) :=
  c2_transition_write_sequence_safe Main.sigAllRed (by decide) (by decide) (by decide)

namespace Main

theorem readButtons_currentPhase (s : CtrlState) (i : Inputs) :
    (readButtons s i).currentPhase = s.currentPhase := by
  simp only [readButtons, readNsButton, readEwButton, readPedButton]
  split_ifs <;> rfl

theorem readButtons_sig (s : CtrlState) (i : Inputs) :
    (readButtons s i).sig = s.sig := by
  simp only [readButtons, readNsButton, readEwButton, readPedButton]
  split_ifs <;> rfl

theorem readButtons_lastNs (s : CtrlState) (i : Inputs) :
    (readButtons s i).lastNsBtnState = i.ns := by
  simp only [readButtons, readNsButton, readEwButton, readPedButton]
  split_ifs <;> rfl

theorem readButtons_lastEw (s : CtrlState) (i : Inputs) :
    (readButtons s i).lastEwBtnState = i.ew := by
  simp only [readButtons, readNsButton, readEwButton, readPedButton]
  split_ifs <;> rfl

theorem readButtons_lastPed (s : CtrlState) (i : Inputs) :
    (readButtons s i).lastPedBtnState = i.ped := by
  simp [readButtons, readNsButton, readEwButton, readPedButton]

theorem readButtons_trafficCountNS (s : CtrlState) (i : Inputs) :
    (readButtons s i).trafficCountNS =
      if i.ns = false ∧ s.lastNsBtnState = true ∧ isNsRed s.currentPhase = true
      then s.trafficCountNS + 1 else s.trafficCountNS := by
  simp only [readButtons, readNsButton, readEwButton, readPedButton]
  split_ifs <;> first | rfl | tauto

theorem readButtons_trafficCountEW (s : CtrlState) (i : Inputs) :
    (readButtons s i).trafficCountEW =
      if i.ew = false ∧ s.lastEwBtnState = true ∧ isEwRed s.currentPhase = true
      then s.trafficCountEW + 1 else s.trafficCountEW := by
  simp only [readButtons, readNsButton, readEwButton, readPedButton]
  split_ifs <;> first | rfl | tauto

theorem readButtons_pedRequest (s : CtrlState) (i : Inputs) :
    (readButtons s i).pedRequest =
      if i.ped = false ∧ s.lastPedBtnState = true then true else s.pedRequest := by
  simp only [readButtons, readNsButton, readEwButton, readPedButton]
  split_ifs <;> first | rfl | tauto

theorem runRead_nil (s : CtrlState) : runRead s [] = s := rfl

theorem runRead_cons (s : CtrlState) (i : Inputs) (ins : List Inputs) :
    runRead s (i :: ins) = runRead (readButtons s i) ins := rfl

theorem runRead_currentPhase (s : CtrlState) (ins : List Inputs) :
    (runRead s ins).currentPhase = s.currentPhase := by
  induction ins generalizing s with
  | nil => rfl
  | cons i ins ih => rw [runRead_cons, ih, readButtons_currentPhase]

theorem runRead_sig (s : CtrlState) (ins : List Inputs) :
    (runRead s ins).sig = s.sig := by
  induction ins generalizing s with
  | nil => rfl
  | cons i ins ih => rw [runRead_cons, ih, readButtons_sig]

theorem runRead_lastNs (s : CtrlState) (ins : List Inputs) :
    (runRead s ins).lastNsBtnState = lastLevel s.lastNsBtnState (ins.map (·.ns)) := by
  induction ins generalizing s with
  | nil => rfl
  | cons i ins ih =>
      rw [runRead_cons, ih, readButtons_lastNs]
      simp [lastLevel, List.map]

theorem runRead_lastEw (s : CtrlState) (ins : List Inputs) :
    (runRead s ins).lastEwBtnState = lastLevel s.lastEwBtnState (ins.map (·.ew)) := by
  induction ins generalizing s with
  | nil => rfl
  | cons i ins ih =>
      rw [runRead_cons, ih, readButtons_lastEw]
      simp [lastLevel, List.map]

theorem runRead_lastPed (s : CtrlState) (ins : List Inputs) :
    (runRead s ins).lastPedBtnState = lastLevel s.lastPedBtnState (ins.map (·.ped)) := by
  induction ins generalizing s with
  | nil => rfl
  | cons i ins ih =>
      rw [runRead_cons, ih, readButtons_lastPed]
      simp [lastLevel, List.map]

theorem runRead_pedRequest (s : CtrlState) (ins : List Inputs) :
    (runRead s ins).pedRequest =
      (s.pedRequest || hasFall s.lastPedBtnState (ins.map (·.ped))) := by
  induction ins generalizing s with
  | nil => simp [runRead, hasFall]
  | cons i ins ih =>
      rw [runRead_cons, ih, readButtons_pedRequest, readButtons_lastPed]
      cases hp : i.ped <;> cases hl : s.lastPedBtnState <;>
        simp_all [hasFall]

theorem runRead_trafficCountNS (s : CtrlState) (ins : List Inputs) :
    (runRead s ins).trafficCountNS =
      s.trafficCountNS +
        (if isNsRed s.currentPhase = true
         then countFalls s.lastNsBtnState (ins.map (·.ns)) else 0) := by
  induction ins generalizing s with
  | nil => simp [runRead, countFalls]
  | cons i ins ih =>
      rw [runRead_cons, ih, readButtons_trafficCountNS, readButtons_currentPhase,
        readButtons_lastNs]
      cases hn : i.ns <;> cases hl : s.lastNsBtnState <;>
        cases hr : isNsRed s.currentPhase <;>
        simp_all [countFalls] <;> omega

theorem runRead_trafficCountEW (s : CtrlState) (ins : List Inputs) :
    (runRead s ins).trafficCountEW =
      s.trafficCountEW +
        (if isEwRed s.currentPhase = true
         then countFalls s.lastEwBtnState (ins.map (·.ew)) else 0) := by
  induction ins generalizing s with
  | nil => simp [runRead, countFalls]
  | cons i ins ih =>
      rw [runRead_cons, ih, readButtons_trafficCountEW, readButtons_currentPhase,
        readButtons_lastEw]
      cases he : i.ew <;> cases hl : s.lastEwBtnState <;>
        cases hr : isEwRed s.currentPhase <;>
        simp_all [countFalls] <;> omega

theorem hasFall_eq_false_of_all_true (prev : Bool) (ls : List Bool)
    (h : ∀ x ∈ ls, x = true) : hasFall prev ls = false := by
  induction ls generalizing prev with
  | nil => rfl
  | cons l ls ih =>
      have hl : l = true := h l (List.mem_cons_self l ls)
      simp [hasFall, hl, ih _ fun x hx => h x (List.mem_cons_of_mem l hx)]

theorem pedIfReq_of_no_request (s : CtrlState) (ins : List Inputs)
    (h : s.pedRequest = false) : phasePedestrianIfRequested s ins = s := by
  simp [phasePedestrianIfRequested, h]

theorem pedIfReq_of_request_pedRequest (s : CtrlState) (ins : List Inputs)
    (h : s.pedRequest = true) :
    (phasePedestrianIfRequested s ins).pedRequest = false := by
  simp [phasePedestrianIfRequested, h]

theorem pedIfReq_of_request_currentPhase (s : CtrlState) (ins : List Inputs)
    (h : s.pedRequest = true) :
    (phasePedestrianIfRequested s ins).currentPhase = Phase.PHASE_PED_GREEN := by
  simp only [phasePedestrianIfRequested, h]
  rw [if_neg (by simp)]
  simp [runRead_currentPhase]

end Main

namespace Main

theorem readNsButton_lastNs (s : CtrlState) (b : Bool) :
    (readNsButton s b).lastNsBtnState = b := by
  simp [readNsButton]

theorem readEwButton_lastEw (s : CtrlState) (b : Bool) :
    (readEwButton s b).lastEwBtnState = b := by
  simp [readEwButton]

theorem readPedButton_lastPed (s : CtrlState) (b : Bool) :
    (readPedButton s b).lastPedBtnState = b := by
  simp [readPedButton]

theorem readNsButton_trafficCountEW (s : CtrlState) (b : Bool) :
    (readNsButton s b).trafficCountEW = s.trafficCountEW := by
  simp only [readNsButton]; split_ifs <;> rfl

theorem readNsButton_pedRequest (s : CtrlState) (b : Bool) :
    (readNsButton s b).pedRequest = s.pedRequest := by
  simp only [readNsButton]; split_ifs <;> rfl

theorem readEwButton_trafficCountNS (s : CtrlState) (b : Bool) :
    (readEwButton s b).trafficCountNS = s.trafficCountNS := by
  simp only [readEwButton]; split_ifs <;> rfl

theorem readEwButton_pedRequest (s : CtrlState) (b : Bool) :
    (readEwButton s b).pedRequest = s.pedRequest := by
  simp only [readEwButton]; split_ifs <;> rfl

theorem readNsButton_idem (s : CtrlState) (b : Bool) :
    readNsButton (readNsButton s b) b = readNsButton s b := by
  simp only [readNsButton, readNsButton_lastNs]
  split_ifs <;> first | rfl | simp_all

theorem readEwButton_idem (s : CtrlState) (b : Bool) :
    readEwButton (readEwButton s b) b = readEwButton s b := by
  simp only [readEwButton, readEwButton_lastEw]
  split_ifs <;> first | rfl | simp_all

theorem readPedButton_idem (s : CtrlState) (b : Bool) :
    readPedButton (readPedButton s b) b = readPedButton s b := by
  simp only [readPedButton, readPedButton_lastPed]
  split_ifs <;> first | rfl | simp_all

theorem phaseNsGreen_pedRequest (s : CtrlState) (ins : List Inputs) :
    (phaseNsGreen s ins).pedRequest =
      (s.pedRequest || hasFall s.lastPedBtnState (ins.map (·.ped))) := by
  simp [phaseNsGreen, runRead_pedRequest]

theorem phaseNsYellow_pedRequest (s : CtrlState) (ins : List Inputs) :
    (phaseNsYellow s ins).pedRequest =
      (s.pedRequest || hasFall s.lastPedBtnState (ins.map (·.ped))) := by
  simp [phaseNsYellow, runRead_pedRequest]

theorem phaseEwGreen_pedRequest (s : CtrlState) (ins : List Inputs) :
    (phaseEwGreen s ins).pedRequest =
      (s.pedRequest || hasFall s.lastPedBtnState (ins.map (·.ped))) := by
  simp [phaseEwGreen, runRead_pedRequest]

theorem phaseEwYellow_pedRequest (s : CtrlState) (ins : List Inputs) :
    (phaseEwYellow s ins).pedRequest =
      (s.pedRequest || hasFall s.lastPedBtnState (ins.map (·.ped))) := by
  simp [phaseEwYellow, runRead_pedRequest]

end Main

namespace MainWithLcd

theorem lcdReadNsButton_lastNs (s : CtrlState) (b : Bool) :
    (readNsButton s b).lastNsBtnState = b := by
  simp [readNsButton]

theorem lcdReadEwButton_lastEw (s : CtrlState) (b : Bool) :
    (readEwButton s b).lastEwBtnState = b := by
  simp [readEwButton]

theorem lcdReadPedButton_lastPed (s : CtrlState) (b : Bool) :
    (readPedButton s b).lastPedBtnState = b := by
  simp [readPedButton]

theorem lcdReadNsButton_idem (s : CtrlState) (b : Bool) :
    readNsButton (readNsButton s b) b = readNsButton s b := by
  simp only [readNsButton, lcdReadNsButton_lastNs]
  split_ifs <;> first | rfl | simp_all

theorem lcdReadEwButton_idem (s : CtrlState) (b : Bool) :
    readEwButton (readEwButton s b) b = readEwButton s b := by
  simp only [readEwButton, lcdReadEwButton_lastEw]
  split_ifs <;> first | rfl | simp_all

theorem lcdReadPedButton_idem (s : CtrlState) (b : Bool) :
    readPedButton (readPedButton s b) b = readPedButton s b := by
  simp only [readPedButton, lcdReadPedButton_lastPed]
  split_ifs <;> first | rfl | simp_all

end MainWithLcd

namespace Main

theorem hasFall_all_true (ls : List Bool) (h : ∀ x ∈ ls, x = true) (prev : Bool) :
    hasFall prev ls = false :=
  hasFall_eq_false_of_all_true prev ls h

end Main

/-- C3 counterexample: the claimed breakpoints fail for the
`main_withlcd.cpp` variant of the green-duration function, which the
claim also cites: at counter 4 it returns 20, not the claimed 10. -/
theorem c3_counterexample_withlcd_breakpoints :
    MainWithLcd.computeNsGreenSeconds 4 = 20 ∧
    ¬(MainWithLcd.computeNsGreenSeconds 4 = 10) := by
  decide

/-- C3 (amended): all four green-duration functions are monotonically
non-decreasing in the counter; `main.cpp`'s `computeNsGreenSeconds` and
`computeEwGreenSeconds` return exactly 10 on [0,4], 20 on [5,9], 30 on
[10,14] and 40 on [15,∞) (base 10 plus the step table), while
`main_withlcd.cpp`'s variants return exactly 10 on [0,3], 20 on [4,7]
and 30 on [8,∞). -/
theorem c3_green_seconds_monotone_breakpoints (c d : Nat) (hcd : c ≤ d) :
    (Main.computeNsGreenSeconds c ≤ Main.computeNsGreenSeconds d) ∧
    (Main.computeEwGreenSeconds c ≤ Main.computeEwGreenSeconds d) ∧
    (MainWithLcd.computeNsGreenSeconds c ≤ MainWithLcd.computeNsGreenSeconds d) ∧
    (MainWithLcd.computeEwGreenSeconds c ≤ MainWithLcd.computeEwGreenSeconds d) ∧
    (c ≤ 4 → Main.computeNsGreenSeconds c = 10 ∧ Main.computeEwGreenSeconds c = 10) ∧
    (5 ≤ c ∧ c ≤ 9 → Main.computeNsGreenSeconds c = 20 ∧ Main.computeEwGreenSeconds c = 20) ∧
    (10 ≤ c ∧ c ≤ 14 → Main.computeNsGreenSeconds c = 30 ∧ Main.computeEwGreenSeconds c = 30) ∧
    (15 ≤ c → Main.computeNsGreenSeconds c = 40 ∧ Main.computeEwGreenSeconds c = 40) ∧
    (c ≤ 3 → MainWithLcd.computeNsGreenSeconds c = 10 ∧ MainWithLcd.computeEwGreenSeconds c = 10) ∧
    (4 ≤ c ∧ c ≤ 7 → MainWithLcd.computeNsGreenSeconds c = 20 ∧ MainWithLcd.computeEwGreenSeconds c = 20) ∧
    (8 ≤ c → MainWithLcd.computeNsGreenSeconds c = 30 ∧ MainWithLcd.computeEwGreenSeconds c = 30) := by
  unfold Main.computeNsGreenSeconds Main.computeEwGreenSeconds Main.BASE_GREEN_SEC
    MainWithLcd.computeNsGreenSeconds MainWithLcd.computeEwGreenSeconds
  refine ⟨?_, ?_, ?_, ?_, ?_, ?_, ?_, ?_, ?_, ?_, ?_⟩ <;>
    (intros; split_ifs <;> omega)

/-- Witness for C3 at counters 5 ≤ 15. -/
theorem c3_green_seconds_monotone_breakpoints_witness :
    (5 : Nat) ≤ 15 ∧ Main.computeNsGreenSeconds 5 ≤ Main.computeNsGreenSeconds 15 :=
  ⟨by decide, (c3_green_seconds_monotone_breakpoints 5 15 (by decide)).1⟩

/-- C4: a debounced press event on an axis traffic button, processed by
`readButtons`, increments that axis's counter exactly when the axis is
red-equivalent and leaves it unchanged otherwise; the NS button block
never touches the EW counter or the pedestrian latch, and the EW button
block never touches the NS counter or the pedestrian latch. -/
theorem c4_axis_press_counted_iff_red :
    ∀ (s : Main.CtrlState) (i : Main.Inputs),
      ((Main.readButtons s i).trafficCountNS =
        if i.ns = false ∧ s.lastNsBtnState = true then
          (if Main.isNsRed s.currentPhase = true
           then s.trafficCountNS + 1 else s.trafficCountNS)
        else s.trafficCountNS) ∧
      ((Main.readButtons s i).trafficCountEW =
        if i.ew = false ∧ s.lastEwBtnState = true then
          (if Main.isEwRed s.currentPhase = true
           then s.trafficCountEW + 1 else s.trafficCountEW)
        else s.trafficCountEW) ∧
      (Main.readNsButton s i.ns).trafficCountEW = s.trafficCountEW ∧
      (Main.readNsButton s i.ns).pedRequest = s.pedRequest ∧
      (Main.readEwButton s i.ew).trafficCountNS = s.trafficCountNS ∧
      (Main.readEwButton s i.ew).pedRequest = s.pedRequest := by
  intro s i
  refine ⟨?_, ?_, Main.readNsButton_trafficCountEW s i.ns,
    Main.readNsButton_pedRequest s i.ns,
    Main.readEwButton_trafficCountNS s i.ew,
    Main.readEwButton_pedRequest s i.ew⟩
  · rw [Main.readButtons_trafficCountNS]
    cases hn : i.ns <;> cases hl : s.lastNsBtnState <;>
      cases hr : Main.isNsRed s.currentPhase <;> simp [hn, hl, hr]
  · rw [Main.readButtons_trafficCountEW]
    cases he : i.ew <;> cases hl : s.lastEwBtnState <;>
      cases hr : Main.isEwRed s.currentPhase <;> simp [he, hl, hr]

/-- C5: press events fire exactly once per press-release cycle in both
variants: the stored previous level is updated on every call; sampling
the same level twice in a row changes nothing the second time (no event
while held, none on release); and over any sampled sequence the NS/EW
counters grow by exactly the number of HIGH→LOW edges (when the axis is
countable) and the pedestrian latch is set exactly when some HIGH→LOW
edge occurred. -/
theorem c5_edge_fires_once_per_press :
    ∀ (s : Main.CtrlState) (t : MainWithLcd.CtrlState) (b : Bool)
      (ins : List Main.Inputs),
      ((Main.readNsButton s b).lastNsBtnState = b ∧
       (Main.readEwButton s b).lastEwBtnState = b ∧
       (Main.readPedButton s b).lastPedBtnState = b ∧
       (MainWithLcd.readNsButton t b).lastNsBtnState = b ∧
       (MainWithLcd.readEwButton t b).lastEwBtnState = b ∧
       (MainWithLcd.readPedButton t b).lastPedBtnState = b) ∧
      (Main.readNsButton (Main.readNsButton s b) b = Main.readNsButton s b ∧
       Main.readEwButton (Main.readEwButton s b) b = Main.readEwButton s b ∧
       Main.readPedButton (Main.readPedButton s b) b = Main.readPedButton s b ∧
       MainWithLcd.readNsButton (MainWithLcd.readNsButton t b) b = MainWithLcd.readNsButton t b ∧
       MainWithLcd.readEwButton (MainWithLcd.readEwButton t b) b = MainWithLcd.readEwButton t b ∧
       MainWithLcd.readPedButton (MainWithLcd.readPedButton t b) b = MainWithLcd.readPedButton t b) ∧
      ((Main.runRead s ins).trafficCountNS =
         s.trafficCountNS +
           (if Main.isNsRed s.currentPhase = true
            then Main.countFalls s.lastNsBtnState (ins.map (·.ns)) else 0) ∧
       (Main.runRead s ins).trafficCountEW =
         s.trafficCountEW +
           (if Main.isEwRed s.currentPhase = true
            then Main.countFalls s.lastEwBtnState (ins.map (·.ew)) else 0) ∧
       (Main.runRead s ins).pedRequest =
         (s.pedRequest || Main.hasFall s.lastPedBtnState (ins.map (·.ped)))) :=
  fun s t b ins =>
    ⟨⟨Main.readNsButton_lastNs s b, Main.readEwButton_lastEw s b,
      Main.readPedButton_lastPed s b, MainWithLcd.lcdReadNsButton_lastNs t b,
      MainWithLcd.lcdReadEwButton_lastEw t b, MainWithLcd.lcdReadPedButton_lastPed t b⟩,
     ⟨Main.readNsButton_idem s b, Main.readEwButton_idem s b,
      Main.readPedButton_idem s b, MainWithLcd.lcdReadNsButton_idem t b,
      MainWithLcd.lcdReadEwButton_idem t b, MainWithLcd.lcdReadPedButton_idem t b⟩,
     Main.runRead_trafficCountNS s ins, Main.runRead_trafficCountEW s ins,
     Main.runRead_pedRequest s ins⟩

/-- C6: when a green phase's dwell completes, that axis's own counter is
exactly zero and the other axis's counter is exactly its entry value
plus the presses accumulated during the dwell (the green phase neither
resets nor otherwise modifies the other axis's counter). -/
theorem c6_green_phase_counter_frame :
    ∀ (s : Main.CtrlState) (ins : List Main.Inputs),
      (Main.phaseNsGreen s ins).trafficCountNS = 0 ∧
      (Main.phaseNsGreen s ins).trafficCountEW =
        s.trafficCountEW + Main.countFalls s.lastEwBtnState (ins.map (·.ew)) ∧
      (Main.phaseEwGreen s ins).trafficCountEW = 0 ∧
      (Main.phaseEwGreen s ins).trafficCountNS =
        s.trafficCountNS + Main.countFalls s.lastNsBtnState (ins.map (·.ns)) := by
  intro s ins
  refine ⟨?_, ?_, ?_, ?_⟩
  · simp [Main.phaseNsGreen]
  · simp [Main.phaseNsGreen, Main.runRead_trafficCountEW, Main.isEwRed]
  · simp [Main.phaseEwGreen]
  · simp [Main.phaseEwGreen, Main.runRead_trafficCountNS, Main.isNsRed]

/-- C10: during the Pedestrian phase both axes are red-equivalent
(`isNsRed` and `isEwRed` are true), so a debounced press on either axis
button processed by `readButtons` during the pedestrian dwell increments
that axis's counter. -/
theorem c10_both_axes_countable_during_ped :
    Main.isNsRed Main.Phase.PHASE_PED_GREEN = true ∧
    Main.isEwRed Main.Phase.PHASE_PED_GREEN = true ∧
    ∀ s : Main.CtrlState,
      (Main.readButtons
        { s with currentPhase := Main.Phase.PHASE_PED_GREEN,
                 lastNsBtnState := true, lastEwBtnState := true }
        ⟨false, false, true⟩).trafficCountNS = s.trafficCountNS + 1 ∧
      (Main.readButtons
        { s with currentPhase := Main.Phase.PHASE_PED_GREEN,
                 lastNsBtnState := true, lastEwBtnState := true }
        ⟨false, false, true⟩).trafficCountEW = s.trafficCountEW + 1 := by
  refine ⟨rfl, rfl, fun s => ⟨?_, ?_⟩⟩
  · rw [Main.readButtons_trafficCountNS]
    simp [Main.isNsRed]
  · rw [Main.readButtons_trafficCountEW]
    simp [Main.isEwRed]

/-- C7: the Pedestrian phase runs at an insertion point iff the request
latch is true there: with the latch false the insertion is the identity,
with it true the pedestrian dwell runs (the phase becomes Pedestrian)
and the latch is cleared; concretely, a pedestrian press during NS-Green
makes the latch true immediately after NS-Yellow, the first insertion
point runs the pedestrian phase exactly once and clears the latch, and
(absent new presses) the second insertion point of the cycle does
nothing. -/
theorem c7_ped_phase_runs_iff_latched (s : Main.CtrlState)
    (i1 i2 i3 i4 i5 i6 : List Main.Inputs)
    (h0 : s.pedRequest = false)
    (h1 : Main.hasFall s.lastPedBtnState (i1.map (·.ped)) = true)
    (h4 : ∀ x ∈ i4, x.ped = true)
    (h5 : ∀ x ∈ i5, x.ped = true) :
    (∀ (t : Main.CtrlState) (ins : List Main.Inputs), t.pedRequest = false →
        Main.phasePedestrianIfRequested t ins = t) ∧
    (∀ (t : Main.CtrlState) (ins : List Main.Inputs), t.pedRequest = true →
        (Main.phasePedestrianIfRequested t ins).currentPhase = Main.Phase.PHASE_PED_GREEN ∧
        (Main.phasePedestrianIfRequested t ins).pedRequest = false) ∧
    (Main.phaseNsYellow (Main.phaseNsGreen s i1) i2).pedRequest = true ∧
    (Main.phasePedestrianIfRequested
        (Main.phaseNsYellow (Main.phaseNsGreen s i1) i2) i3).currentPhase =
      Main.Phase.PHASE_PED_GREEN ∧
    (Main.phasePedestrianIfRequested
        (Main.phaseNsYellow (Main.phaseNsGreen s i1) i2) i3).pedRequest = false ∧
    (Main.phaseEwYellow
        (Main.phaseEwGreen
          (Main.phasePedestrianIfRequested
            (Main.phaseNsYellow (Main.phaseNsGreen s i1) i2) i3) i4) i5).pedRequest = false ∧
    Main.phasePedestrianIfRequested
        (Main.phaseEwYellow
          (Main.phaseEwGreen
            (Main.phasePedestrianIfRequested
              (Main.phaseNsYellow (Main.phaseNsGreen s i1) i2) i3) i4) i5) i6 =
      Main.phaseEwYellow
        (Main.phaseEwGreen
          (Main.phasePedestrianIfRequested
            (Main.phaseNsYellow (Main.phaseNsGreen s i1) i2) i3) i4) i5 := by
  have hB : (Main.phaseNsYellow (Main.phaseNsGreen s i1) i2).pedRequest = true := by
    rw [Main.phaseNsYellow_pedRequest, Main.phaseNsGreen_pedRequest, h0, h1]
    simp
  have hC : (Main.phasePedestrianIfRequested
      (Main.phaseNsYellow (Main.phaseNsGreen s i1) i2) i3).pedRequest = false :=
    Main.pedIfReq_of_request_pedRequest _ i3 hB
  have e4 := Main.hasFall_all_true (i4.map (·.ped)) (by
    intro x hx
    rcases List.mem_map.mp hx with ⟨a, ha, rfl⟩
    exact h4 a ha)
  have e5 := Main.hasFall_all_true (i5.map (·.ped)) (by
    intro x hx
    rcases List.mem_map.mp hx with ⟨a, ha, rfl⟩
    exact h5 a ha)
  have hE : (Main.phaseEwYellow
      (Main.phaseEwGreen
        (Main.phasePedestrianIfRequested
          (Main.phaseNsYellow (Main.phaseNsGreen s i1) i2) i3) i4) i5).pedRequest = false := by
    rw [Main.phaseEwYellow_pedRequest, Main.phaseEwGreen_pedRequest, hC, e4, e5]
    simp
  exact ⟨fun t ins ht => Main.pedIfReq_of_no_request t ins ht,
    fun t ins ht => ⟨Main.pedIfReq_of_request_currentPhase t ins ht,
      Main.pedIfReq_of_request_pedRequest t ins ht⟩,
    hB, Main.pedIfReq_of_request_currentPhase _ i3 hB, hC, hE,
    Main.pedIfReq_of_no_request _ i6 hE⟩

/-- Witness for C7: a single pedestrian press during the NS-Green dwell
of the startup state. -/
theorem c7_ped_phase_runs_iff_latched_witness :
    Main.initialState.pedRequest = false ∧
    Main.hasFall Main.initialState.lastPedBtnState
      (([(⟨true, true, false⟩ : Main.Inputs)]).map (·.ped)) = true ∧
    (Main.phaseNsYellow (Main.phaseNsGreen Main.initialState
        [(⟨true, true, false⟩ : Main.Inputs)]) []).pedRequest = true ∧
    (Main.phasePedestrianIfRequested
        (Main.phaseNsYellow (Main.phaseNsGreen Main.initialState
          [(⟨true, true, false⟩ : Main.Inputs)]) []) []).pedRequest = false :=
  ⟨by decide, by decide,
   (c7_ped_phase_runs_iff_latched Main.initialState
      [(⟨true, true, false⟩ : Main.Inputs)] [] [] [] [] []
      (by decide) (by decide) (by simp) (by simp)).2.2.1,
   (c7_ped_phase_runs_iff_latched Main.initialState
      [(⟨true, true, false⟩ : Main.Inputs)] [] [] [] [] []
      (by decide) (by decide) (by simp) (by simp)).2.2.2.2.1⟩

/-- C8: latching the pedestrian request is idempotent: two sample
sequences that agree on the vehicle buttons and both contain at least
one pedestrian press (and end at the same pedestrian level) drive the
controller to identical states — the two-press run equals the one-press
run — and the next insertion point then runs exactly one pedestrian
phase and clears the latch, so a second insertion would do nothing. -/
theorem c8_ped_request_idempotent (s : Main.CtrlState)
    (ls1 ls2 ins : List Main.Inputs)
    (hns : ls1.map (·.ns) = ls2.map (·.ns))
    (hew : ls1.map (·.ew) = ls2.map (·.ew))
    (hp1 : Main.hasFall s.lastPedBtnState (ls1.map (·.ped)) = true)
    (hp2 : Main.hasFall s.lastPedBtnState (ls2.map (·.ped)) = true)
    (hlast : Main.lastLevel s.lastPedBtnState (ls1.map (·.ped)) =
             Main.lastLevel s.lastPedBtnState (ls2.map (·.ped))) :
    Main.runRead s ls1 = Main.runRead s ls2 ∧
    (Main.runRead s ls1).pedRequest = true ∧
    (Main.phasePedestrianIfRequested (Main.runRead s ls1) ins).currentPhase =
      Main.Phase.PHASE_PED_GREEN ∧
    (Main.phasePedestrianIfRequested (Main.runRead s ls1) ins).pedRequest = false ∧
    ∀ ins2,
      Main.phasePedestrianIfRequested
          (Main.phasePedestrianIfRequested (Main.runRead s ls1) ins) ins2 =
        Main.phasePedestrianIfRequested (Main.runRead s ls1) ins := by
  have hreq : (Main.runRead s ls1).pedRequest = true := by
    rw [Main.runRead_pedRequest, hp1]; simp
  refine ⟨?_, hreq, Main.pedIfReq_of_request_currentPhase _ ins hreq,
    Main.pedIfReq_of_request_pedRequest _ ins hreq,
    fun ins2 => Main.pedIfReq_of_no_request _ ins2
      (Main.pedIfReq_of_request_pedRequest _ ins hreq)⟩
  apply Main.CtrlState.ext
  · rw [Main.runRead_currentPhase, Main.runRead_currentPhase]
  · rw [Main.runRead_trafficCountNS, Main.runRead_trafficCountNS, hns]
  · rw [Main.runRead_trafficCountEW, Main.runRead_trafficCountEW, hew]
  · rw [Main.runRead_pedRequest, Main.runRead_pedRequest, hp1, hp2]
  · rw [Main.runRead_lastNs, Main.runRead_lastNs, hns]
  · rw [Main.runRead_lastEw, Main.runRead_lastEw, hew]
  · rw [Main.runRead_lastPed, Main.runRead_lastPed, hlast]
  · rw [Main.runRead_sig, Main.runRead_sig]

/-- Witness for C8: a one-press run versus a two-press run of equal
length, both ending released. -/
theorem c8_ped_request_idempotent_witness :
    Main.runRead Main.initialState
        [(⟨true, true, false⟩ : Main.Inputs), ⟨true, true, true⟩,
         ⟨true, true, true⟩, ⟨true, true, true⟩] =
      Main.runRead Main.initialState
        [(⟨true, true, false⟩ : Main.Inputs), ⟨true, true, true⟩,
         ⟨true, true, false⟩, ⟨true, true, true⟩] ∧
    (Main.runRead Main.initialState
        [(⟨true, true, false⟩ : Main.Inputs), ⟨true, true, true⟩,
         ⟨true, true, true⟩, ⟨true, true, true⟩]).pedRequest = true :=
  ⟨(c8_ped_request_idempotent Main.initialState
      [(⟨true, true, false⟩ : Main.Inputs), ⟨true, true, true⟩,
       ⟨true, true, true⟩, ⟨true, true, true⟩]
      [(⟨true, true, false⟩ : Main.Inputs), ⟨true, true, true⟩,
       ⟨true, true, false⟩, ⟨true, true, true⟩] []
      (by decide) (by decide) (by decide) (by decide) (by decide)).1,
   (c8_ped_request_idempotent Main.initialState
      [(⟨true, true, false⟩ : Main.Inputs), ⟨true, true, true⟩,
       ⟨true, true, true⟩, ⟨true, true, true⟩]
      [(⟨true, true, false⟩ : Main.Inputs), ⟨true, true, true⟩,
       ⟨true, true, false⟩, ⟨true, true, true⟩] []
      (by decide) (by decide) (by decide) (by decide) (by decide)).2.1⟩

/-- C9: a pedestrian press delivered during the pedestrian dwell itself
is lost: the dwell's `readButtons` calls leave the latch true, but
`phasePedestrianIfRequested` clears it unconditionally when the dwell
completes, and a following insertion point (absent a new press) does
nothing. -/
theorem c9_press_during_ped_dwell_lost (s : Main.CtrlState)
    (ins : List Main.Inputs)
    (h : s.pedRequest = true)
    (hf : Main.hasFall s.lastPedBtnState (ins.map (·.ped)) = true) :
    (Main.runRead
        { s with currentPhase := Main.Phase.PHASE_PED_GREEN,
                 sig := Main.setPedestrianGreenState s.sig } ins).pedRequest = true ∧
    (Main.phasePedestrianIfRequested s ins).pedRequest = false ∧
    ∀ ins2,
      Main.phasePedestrianIfRequested
          (Main.phasePedestrianIfRequested s ins) ins2 =
        Main.phasePedestrianIfRequested s ins := by
  have hmid : (Main.runRead
      { s with currentPhase := Main.Phase.PHASE_PED_GREEN,
               sig := Main.setPedestrianGreenState s.sig } ins).pedRequest = true := by
    rw [Main.runRead_pedRequest]
    simp [hf]
  have hend : (Main.phasePedestrianIfRequested s ins).pedRequest = false :=
    Main.pedIfReq_of_request_pedRequest s ins h
  exact ⟨hmid, hend, fun ins2 => Main.pedIfReq_of_no_request _ ins2 hend⟩

/-- Witness for C9: a pedestrian press sampled during the pedestrian
dwell of a latched state. -/
theorem c9_press_during_ped_dwell_lost_witness :
    ({ Main.initialState with pedRequest := true } : Main.CtrlState).pedRequest = true ∧
    (Main.phasePedestrianIfRequested
        ({ Main.initialState with pedRequest := true } : Main.CtrlState)
        [(⟨true, true, false⟩ : Main.Inputs)]).pedRequest = false :=
  ⟨by decide,
   (c9_press_during_ped_dwell_lost
      ({ Main.initialState with pedRequest := true } : Main.CtrlState)
      [(⟨true, true, false⟩ : Main.Inputs)]
      (by decide) (by decide)).2.1⟩
